import Mathlib

set_option maxHeartbeats 1000000
set_option maxRecDepth 10000

/-!
Shallow embedding of `src/app.py` (Image Automator v15.2, "inspiration gatherer").

The embedded core is the row-to-image resolution pipeline of the source:
`process_row`, `try_scrape_page` and `download_direct_image`, together with the
batch loop of the "Generate Excel" button.  Network fetches and the PIL image
decoder are external effects; they are modelled as explicit oracle functions
returning `Except`, mirroring the `try/except` blocks of the source (a raised
request exception is an `Except.error`, which the embedded functions map to
`none` exactly where the source catches and returns `None`).  The `verbose`
flag of the source only adds `print` calls on the paths embedded here, so the
embedding follows the `verbose=False` batch path.

To make "no scraping happened" and "no network call happened" provable, the
embedded functions also return the ordered trace of network-visible events
(`NetEvent`), corresponding to the network-call counter the specification says
these properties are verified with.
-/

/-- Model of Python `str.lower` (character-wise lowering). -/
def pyLower (s : String) : String := ⟨s.data.map Char.toLower⟩

/-- Boolean "needle occurs inside hay" on character lists; model of Python
substring containment used via `x in s`. -/
def charsInfixOf (needle : List Char) : List Char → Bool
  | [] => needle.isEmpty
  | a :: t => needle.isPrefixOf (a :: t) || charsInfixOf needle t

/-- Model of Python `needle in hay` for strings. -/
def pyContains (hay needle : String) : Bool := charsInfixOf needle.data hay.data

/-- Model of Python `s.startswith(pre)`. -/
def pyStartsWith (s pre : String) : Bool := pre.data.isPrefixOf s.data

/-- Model of Python `s.endswith(suf)`. -/
def pyEndsWith (s suf : String) : Bool := suf.data.isSuffixOf s.data

/-- Model of Python `s.strip()`: drop whitespace at both ends. -/
def pyStrip (s : String) : String :=
  ⟨((s.data.dropWhile Char.isWhitespace).reverse.dropWhile Char.isWhitespace).reverse⟩

/-- Parsed JSON values, as produced by `json.loads` in the source. -/
inductive Json where
  | str (s : String)
  | num (n : Int)
  | bool (b : Bool)
  | null
  | arr (elems : List Json)
  | obj (fields : List (String × Json))

/-- One `<meta>` tag of a fetched page, with the three attributes the source
reads (`property`, `name`, `content`); `none` means the attribute is absent. -/
structure MetaTag where
  property : Option String
  name : Option String
  content : Option String
  deriving DecidableEq

/-- A fetched page as seen by the source after `BeautifulSoup` parsing: its
meta tags in document order, and its `application/ld+json` script blocks in
document order, each either parsed JSON or `none` when `json.loads` raises
(the source catches that and moves to the next block). -/
structure Page where
  metas : List MetaTag
  ldScripts : List (Option Json)

/-- Response of a page fetch in `try_scrape_page`: HTTP status plus the parsed
page content. -/
structure PageResponse where
  status : Nat
  page : Page

/-- Network-visible events of one row, the trace the specification's
"network-call counter" observes.  `metaPhase` / `jsonLdPhase` mark that the
corresponding scraping phase of `try_scrape_page` was executed. -/
inductive NetEvent where
  | scrapeCall (url : String)
  | pageFetch (url : String)
  | metaPhase
  | jsonLdPhase
  deriving DecidableEq

/-- The fixed ordered list `meta_properties` of `try_scrape_page`
(src/app.py lines 135-141). -/
def metaProperties : List String :=
  ["og:image", "twitter:image", "og:image:secure_url", "og:image:url", "twitter:image:src"]

/-- `soup.find("meta", property=prop)` followed by the `name` fallback
(src/app.py lines 145-148): first tag whose `property` attribute is `prop`,
else first tag whose `name` attribute is `prop`. -/
def findMeta (metas : List MetaTag) (prop : String) : Option MetaTag :=
  match metas.find? (fun m => m.property == some prop) with
  | some m => some m
  | none => metas.find? (fun m => m.name == some prop)

/-- Model of `urllib.parse.urljoin(base, rel)` for the only case the source
uses it in (src/app.py lines 156-158: `rel` starts with a single `/`): the
scheme-and-host part of `base` with `rel` appended. -/
def urljoinRoot (base rel : String) : String :=
  match base.splitOn "/" with
  | scheme :: "" :: host :: _ => scheme ++ "//" ++ host ++ rel
  | _ => rel

/-- Absolute-URL fixup applied to a meta tag's content
(src/app.py lines 153-158). -/
def resolveMetaContent (pageUrl c : String) : String :=
  if pyStartsWith c "//" then "https:" ++ c
  else if pyStartsWith c "/" then urljoinRoot pageUrl c
  else c

/-- The meta-tag loop of `try_scrape_page` (src/app.py lines 143-162) over an
explicit list of remaining property names: for each name in order, look the
tag up; a found tag with truthy (non-empty) content is accepted after the
absolute-URL fixup, anything else moves to the next name. -/
def findMetaImageIn (pageUrl : String) (metas : List MetaTag) : List String → Option String
  | [] => none
  | prop :: rest =>
    match findMeta metas prop with
    | some m =>
      match m.content with
      | some c =>
        if c = "" then findMetaImageIn pageUrl metas rest
        else some (resolveMetaContent pageUrl c)
      | none => findMetaImageIn pageUrl metas rest
    | none => findMetaImageIn pageUrl metas rest

/-- The meta-tag phase of `try_scrape_page`, over the fixed property list. -/
def findMetaImage (pageUrl : String) (metas : List MetaTag) : Option String :=
  findMetaImageIn pageUrl metas metaProperties

/-- The `image` field acceptance of the JSON-LD phase (src/app.py lines
178-195): a string is taken as is, a non-empty list yields its first element,
anything else is not usable. -/
def imageFieldFirst : Json → Option Json
  | Json.str s => some (Json.str s)
  | Json.arr (x :: _) => some x
  | _ => none

/-- One JSON-LD item: a dict with an `image` key whose value is usable
(src/app.py lines 176-185 and 186-195). -/
def itemImage : Json → Option Json
  | Json.obj fields => (fields.lookup "image").bind imageFieldFirst
  | _ => none

/-- One parsed JSON-LD script block: a top-level list is scanned item by item,
a top-level dict is inspected directly (src/app.py lines 174-195). -/
def scriptImage : Json → Option Json
  | Json.arr items => items.findSome? itemImage
  | Json.obj fields => itemImage (Json.obj fields)
  | _ => none

/-- The JSON-LD phase of `try_scrape_page` (src/app.py lines 168-197): blocks
are tried in document order; a block that failed to parse (`none`) is
skipped. -/
def jsonLdImage (scripts : List (Option Json)) : Option Json :=
  scripts.findSome? (fun s => s.bind scriptImage)

/-- The per-domain exclusion of `try_scrape_page` (src/app.py line 98):
substring tests for the two hard-blocking sites. -/
def excludedDomain (url : String) : Bool :=
  pyContains url "etsy.com" || pyContains url "next.co.uk"

/-- Embedding of `try_scrape_page` (src/app.py lines 94-209), `verbose=False`
path.  `fetchPage` is the network oracle for `session.get`; an `Except.error`
is a raised request exception, which the source catches and turns into
`None`.  The second component is the trace of network-visible events. -/
def tryScrapePage (fetchPage : String → Except String PageResponse) (url : String) :
    Option Json × List NetEvent :=
  if excludedDomain url then
    (none, [])
  else
    match fetchPage url with
    | Except.error _ => (none, [NetEvent.pageFetch url])
    | Except.ok r =>
      if r.status ≠ 200 then (none, [NetEvent.pageFetch url])
      else
        match findMetaImage url r.page.metas with
        | some v => (some (Json.str v), [NetEvent.pageFetch url, NetEvent.metaPhase])
        | none =>
          match jsonLdImage r.page.ldScripts with
          | some v =>
            (some v, [NetEvent.pageFetch url, NetEvent.metaPhase, NetEvent.jsonLdPhase])
          | none =>
            (none, [NetEvent.pageFetch url, NetEvent.metaPhase, NetEvent.jsonLdPhase])

/-- Cell cleaning of `process_row` (src/app.py lines 214-226).  A cell is
`none` when its column is not configured or the cell is NA (`pd.notna`
false); otherwise the stringified cell value.  The source strips the value
and turns the literal string `nan` into `None`. -/
def cleanCell (cell : Option String) : Option String :=
  match cell with
  | none => none
  | some s =>
    let t := pyStrip s
    if t = "nan" then none else some t

/-- The substrings accepted by the IMAGE-URL-column heuristic
(src/app.py lines 239-240). -/
def imagePatterns : List String :=
  [".jpg", ".jpeg", ".png", ".gif", ".webp", "etsystatic", "xcdn", "potterybarn", "cloudfront"]

/-- `is_image_url` of `process_row` (src/app.py lines 239-240): any accepted
substring occurs anywhere in the lowercased value. -/
def looksLikeImageUrl (v : String) : Bool :=
  imagePatterns.any (fun p => pyContains (pyLower v) p)

/-- The extension tuple of the URL-column direct-image test
(src/app.py line 256). -/
def imageExtensions : List String := [".jpg", ".jpeg", ".png", ".gif", ".webp"]

/-- The URL-column direct-image test (src/app.py line 256): the lowercased
value ends with a recognized image extension. -/
def endsWithImageExt (v : String) : Bool :=
  imageExtensions.any (fun e => pyEndsWith (pyLower v) e)

/-- Whether the IMAGE-URL column yields an accepted value in `process_row`
(truthy cleaned value passing `is_image_url`, src/app.py lines 234-245). -/
def imageAccepted (imageUrlCell : Option String) : Bool :=
  match cleanCell imageUrlCell with
  | some v => if v = "" then false else looksLikeImageUrl v
  | none => false

/-- Embedding of `process_row` (src/app.py lines 211-264): clean both cells,
prefer a truthy IMAGE-URL value passing the heuristic, otherwise use a truthy
URL value — directly when it ends with an image extension, else through
`try_scrape_page`.  The second component is the network-event trace. -/
def processRow (fetchPage : String → Except String PageResponse)
    (urlCell imageUrlCell : Option String) : Option Json × List NetEvent :=
  let urlValue := cleanCell urlCell
  let imageUrlValue := cleanCell imageUrlCell
  let fromImageCol : Option String :=
    match imageUrlValue with
    | some v => if v = "" then none else (if looksLikeImageUrl v then some v else none)
    | none => none
  match fromImageCol with
  | some v => (some (Json.str v), [])
  | none =>
    match urlValue with
    | some u =>
      if u = "" then (none, [])
      else if endsWithImageExt u then (some (Json.str u), [])
      else
        let p := tryScrapePage fetchPage u
        (p.1, NetEvent.scrapeCall u :: p.2)
    | none => (none, [])

/-- An HTTP response of an image fetch: status, declared content type, and
the raw body bytes. -/
structure HttpResponse where
  status : Nat
  contentType : String
  body : List Nat
  deriving DecidableEq

/-- A decoded bitmap as the source sees it through PIL: pixel dimensions and
color mode. -/
structure RawImage where
  width : Nat
  height : Nat
  mode : String
  deriving DecidableEq

/-- Model of `img.convert("RGB")`. -/
def convertRGB (img : RawImage) : RawImage := { img with mode := "RGB" }

/-- Model of PIL `img.resize((w, h))`: the result has exactly the requested
dimensions (PIL does not preserve aspect ratio here). -/
def resizeImg (img : RawImage) (w h : Nat) : RawImage :=
  { width := w, height := h, mode := img.mode }

/-- The protocol-relative fixup of `download_direct_image`
(src/app.py lines 62-63). -/
def normalizeImageUrl (imageUrl : String) : String :=
  if pyStartsWith imageUrl "//" then "https:" ++ imageUrl else imageUrl

/-- Embedding of `download_direct_image` (src/app.py lines 43-92).
`fetchImage` is the oracle for `session.get` (an `Except.error` is a raised
request exception, caught by the source); `decode` is the oracle for
`Image.open` on the body bytes (an `Except.error` is a decode exception,
caught by the source).  `raise_for_status` raises exactly for 4xx/5xx.  The
Boolean result records whether a decode was attempted, mirroring the
"short-circuit before decode" property of the specification. -/
def downloadDirectImage (fetchImage : String → Except String HttpResponse)
    (decode : List Nat → Except String RawImage)
    (imageUrl : String) (width height : Nat) : Option RawImage × Bool :=
  let url := normalizeImageUrl imageUrl
  match fetchImage url with
  | Except.error _ => (none, false)
  | Except.ok r =>
    if 400 ≤ r.status ∧ r.status < 600 then (none, false)
    else
      if pyContains (pyLower r.contentType) "image" = false ∧ r.body.length < 1000 then
        (none, false)
      else
        match decode r.body with
        | Except.error _ => (none, true)
        | Except.ok img0 =>
          let img1 :=
            if img0.mode = "RGBA" ∨ img0.mode = "P" ∨ img0.mode = "LA" then convertRGB img0
            else img0
          (some (resizeImg img1 width height), true)

/-- The external effect oracles one batch run is parameterized over. -/
structure Oracles where
  fetchPage : String → Except String PageResponse
  fetchImage : String → Except String HttpResponse
  decode : List Nat → Except String RawImage

/-- Per-row outcome of the batch loop (success with a bitmap, or a failed
row, src/app.py lines 395-411). -/
inductive Outcome where
  | success (img : RawImage)
  | failed
  deriving DecidableEq

/-- One iteration of the "Generate Excel" loop (src/app.py lines 390-411):
resolve the row, then download.  A non-string resolved value (possible from
the JSON-LD phase) makes `download_direct_image` raise while slicing or
requesting, which the source catches into `None`, hence `failed`. -/
def rowOutcome (oc : Oracles) (w h : Nat) (row : Option String × Option String) : Outcome :=
  match (processRow oc.fetchPage row.1 row.2).1 with
  | some (Json.str u) =>
    match (downloadDirectImage oc.fetchImage oc.decode u w h).1 with
    | some img => Outcome.success img
    | none => Outcome.failed
  | some _ => Outcome.failed
  | none => Outcome.failed

/-- The batch driver (src/app.py lines 390-413): every row of the input is
processed, in order, each independently of the others. -/
def batchDrive (oc : Oracles) (w h : Nat) (rows : List (Option String × Option String)) :
    List Outcome :=
  rows.map (rowOutcome oc w h)

/-- The five resolution strategies of the specification's Resolution
Pipeline (§4.1). -/
inductive Strategy where
  | directLink
  | vendorCDN
  | metaTag
  | structuredData
  | searchFallback
  deriving DecidableEq

/-- Modelled from the spec: the fixed priority order of the five-strategy
Resolution Pipeline of §4.1.  src/app.py (v15.2) contains only strategies 1,
3 and 4; strategies 2 (Vendor-CDN-Guess) and 5 (Search-Engine Fallback) are
in other versions of the repository that are not under src/. -/
def strategyOrder : List Strategy :=
  [Strategy.directLink, Strategy.vendorCDN, Strategy.metaTag,
   Strategy.structuredData, Strategy.searchFallback]

/-- Modelled from the spec: strategies 3 and 4 are the scraping strategies
that the per-domain exclusion of §4.1 skips. -/
def scrapeStrategy : Strategy → Bool
  | Strategy.metaTag => true
  | Strategy.structuredData => true
  | _ => false

/-- Modelled from the spec (§4.1): run the remaining strategies in order,
skipping scraping strategies on excluded domains; the first non-empty result
wins and no further strategies run.  Also returns the list of strategies
actually attempted. -/
def runStrategies (excluded : String → Bool)
    (tryStrategy : Strategy → String → Option String) (url : String) :
    List Strategy → Option String × List Strategy
  | [] => (none, [])
  | s :: rest =>
    if excluded url && scrapeStrategy s then
      runStrategies excluded tryStrategy url rest
    else
      match tryStrategy s url with
      | some v => (some v, [s])
      | none =>
        let p := runStrategies excluded tryStrategy url rest
        (p.1, s :: p.2)

/-- Modelled from the spec (§4.1): the full five-strategy Resolution Pipeline
for one input value. -/
def specPipeline (excluded : String → Bool)
    (tryStrategy : Strategy → String → Option String) (url : String) :
    Option String × List Strategy :=
  runStrategies excluded tryStrategy url strategyOrder

/-! ### Helper lemmas -/

theorem looksLike_ne_empty {v : String} (h : looksLikeImageUrl v = true) : v ≠ "" := by
  intro he
  rw [he] at h
  exact absurd h (by decide)

theorem looksLike_ne_nan {v : String} (h : looksLikeImageUrl v = true) : v ≠ "nan" := by
  intro he
  rw [he] at h
  exact absurd h (by decide)

/-- An IMAGE-URL-column value passing the heuristic is returned as is, with an
empty network trace. -/
theorem processRow_direct (fetchPage : String → Except String PageResponse)
    (urlCell : Option String) (v : String) (hv : pyStrip v = v)
    (hl : looksLikeImageUrl v = true) :
    processRow fetchPage urlCell (some v) = (some (Json.str v), []) := by
  have hne := looksLike_ne_empty hl
  have hnn := looksLike_ne_nan hl
  simp [processRow, cleanCell, hv, hne, hnn, hl]

/-- When the IMAGE-URL column yields no accepted value, `process_row` runs
`try_scrape_page` on a truthy non-direct URL-column value. -/
theorem processRow_fallback (fetchPage : String → Except String PageResponse)
    (urlCell imageUrlCell : Option String) (u : String)
    (hna : imageAccepted imageUrlCell = false)
    (hu : cleanCell urlCell = some u) (hne : u ≠ "") (hext : endsWithImageExt u = false) :
    processRow fetchPage urlCell imageUrlCell
      = ((tryScrapePage fetchPage u).1,
         NetEvent.scrapeCall u :: (tryScrapePage fetchPage u).2) := by
  unfold imageAccepted at hna
  cases hc : cleanCell imageUrlCell with
  | none => simp [processRow, hc, hu, hne, hext]
  | some v =>
    rw [hc] at hna
    by_cases hv : v = ""
    · subst hv
      simp [processRow, hc, hu, hne, hext]
    · simp [hv] at hna
      simp [processRow, hc, hu, hne, hext, hv, hna]

theorem two_slash_not_prefix (l : List Char) (h : ['/'].isPrefixOf l = false) :
    ['/', '/'].isPrefixOf l = false := by
  cases l with
  | nil => rfl
  | cons a t =>
    rw [List.isPrefixOf_cons₂] at h ⊢
    rw [List.isPrefixOf_nil_left, Bool.and_true] at h
    rw [h, Bool.false_and]

/-- Content that does not start with a slash is returned verbatim by the
absolute-URL fixup. -/
theorem resolveMetaContent_verbatim (pageUrl c : String) (h : pyStartsWith c "/" = false) :
    resolveMetaContent pageUrl c = c := by
  have h2 : pyStartsWith c "//" = false := two_slash_not_prefix c.data h
  simp [resolveMetaContent, h, h2]

/-- A first `og:image` tag with non-empty content decides the meta-tag
phase. -/
theorem findMetaImage_og (pageUrl : String) (metas : List MetaTag) (m : MetaTag) (c : String)
    (hm : findMeta metas "og:image" = some m) (hc : m.content = some c) (hne : c ≠ "") :
    findMetaImage pageUrl metas = some (resolveMetaContent pageUrl c) := by
  simp [findMetaImage, metaProperties, findMetaImageIn, hm, hc, hne]

/-- On a non-excluded page fetched with status 200 whose first `og:image` tag
has non-empty content, `try_scrape_page` returns that content after the
absolute-URL fixup and never reaches the JSON-LD phase. -/
theorem tryScrapePage_meta (fetchPage : String → Except String PageResponse)
    (url : String) (page : Page) (m : MetaTag) (c : String)
    (hx : excludedDomain url = false)
    (hf : fetchPage url = Except.ok ⟨200, page⟩)
    (hm : findMeta page.metas "og:image" = some m)
    (hc : m.content = some c) (hne : c ≠ "") :
    tryScrapePage fetchPage url
      = (some (Json.str (resolveMetaContent url c)),
         [NetEvent.pageFetch url, NetEvent.metaPhase]) := by
  simp [tryScrapePage, hx, hf, findMetaImage_og url page.metas m c hm hc hne]

/-- On a non-excluded page fetched with status 200 with no usable meta tags,
`try_scrape_page` returns the JSON-LD phase's value. -/
theorem tryScrapePage_jsonLd (fetchPage : String → Except String PageResponse)
    (url : String) (page : Page) (v : Json)
    (hx : excludedDomain url = false)
    (hf : fetchPage url = Except.ok ⟨200, page⟩)
    (hm : findMetaImage url page.metas = none)
    (hj : jsonLdImage page.ldScripts = some v) :
    tryScrapePage fetchPage url
      = (some v, [NetEvent.pageFetch url, NetEvent.metaPhase, NetEvent.jsonLdPhase]) := by
  simp [tryScrapePage, hx, hf, hm, hj]

/-! ### Claims -/

/-- Claim C1: whenever the direct-image-URL column holds a value that passes
the "looks like an image URL" heuristic, `process_row` resolves to exactly
that value with an empty network trace, so `try_scrape_page` is never
invoked; and only when no such value is accepted does it fall back to the
page-URL column (invoking `try_scrape_page` on a truthy non-direct page-URL
value). -/
theorem c1_direct_image_priority :
    (∀ fetchPage urlCell v, pyStrip v = v → looksLikeImageUrl v = true →
      processRow fetchPage urlCell (some v) = (some (Json.str v), [])) ∧
    (∀ fetchPage urlCell imageUrlCell u, imageAccepted imageUrlCell = false →
      cleanCell urlCell = some u → u ≠ "" → endsWithImageExt u = false →
      processRow fetchPage urlCell imageUrlCell
        = ((tryScrapePage fetchPage u).1,
           NetEvent.scrapeCall u :: (tryScrapePage fetchPage u).2)) :=
  ⟨processRow_direct, processRow_fallback⟩

theorem c1_witness :
    pyStrip "https://cdn.example.com/p/1.png" = "https://cdn.example.com/p/1.png" ∧
    looksLikeImageUrl "https://cdn.example.com/p/1.png" = true ∧
    processRow (fun _ => Except.error "offline") (some "https://example.com/page")
        (some "https://cdn.example.com/p/1.png")
      = (some (Json.str "https://cdn.example.com/p/1.png"), []) :=
  ⟨by decide, by decide,
   c1_direct_image_priority.1 (fun _ => Except.error "offline")
     (some "https://example.com/page") "https://cdn.example.com/p/1.png"
     (by decide) (by decide)⟩

/-- Claim C7: when both cleaned cells are absent (missing, NA, or the string
`nan`), `process_row` returns `none` with an empty network trace. -/
theorem c7_no_values (fetchPage : String → Except String PageResponse)
    (urlCell imageUrlCell : Option String)
    (hu : cleanCell urlCell = none) (hi : cleanCell imageUrlCell = none) :
    processRow fetchPage urlCell imageUrlCell = (none, []) := by
  simp [processRow, hu, hi]

theorem c7_witness :
    cleanCell none = none ∧
    processRow (fun _ => Except.error "offline") none none = (none, []) :=
  ⟨rfl, c7_no_values (fun _ => Except.error "offline") none none rfl rfl⟩

/-- Claim C9: a cell whose stringified, stripped value is exactly `nan` makes
`process_row` behave, in either column, identically to the same row with that
cell absent. -/
theorem c9_nan_cell_absent (fetchPage : String → Except String PageResponse)
    (urlCell imageUrlCell : Option String) (s : String) (h : pyStrip s = "nan") :
    processRow fetchPage urlCell (some s) = processRow fetchPage urlCell none ∧
    processRow fetchPage (some s) imageUrlCell = processRow fetchPage none imageUrlCell := by
  constructor
  · simp [processRow, cleanCell, h]
  · simp [processRow, cleanCell, h]

theorem c9_witness :
    pyStrip " nan " = "nan" ∧
    processRow (fun _ => Except.error "offline") (some "https://example.com/page") (some " nan ")
      = processRow (fun _ => Except.error "offline") (some "https://example.com/page") none :=
  ⟨by decide,
   (c9_nan_cell_absent (fun _ => Except.error "offline") (some "https://example.com/page")
     none " nan " (by decide)).1⟩

/-- Claim C2: for a URL of an excluded (aggressively blocking) domain,
`try_scrape_page` returns `None` with an empty trace, so neither the meta-tag
nor the structured-data phase is ever attempted; in the five-strategy
Resolution Pipeline (strategies 2 and 5 modelled from the spec, as they are
not in src/app.py), an excluded URL never attempts strategies 3 or 4, and
when no strategy succeeds exactly strategies 1, 2 and 5 were attempted; and
the Direct-Link acceptance of `process_row` still applies to such rows. -/
theorem c2_excluded_domains :
    (∀ fetchPage url, excludedDomain url = true →
      tryScrapePage fetchPage url = (none, [])) ∧
    (∀ excluded tryStrategy url, excluded url = true →
      (∀ s, s ∈ (specPipeline excluded tryStrategy url).2 → scrapeStrategy s = false) ∧
      ((specPipeline excluded tryStrategy url).1 = none →
        (specPipeline excluded tryStrategy url).2
          = [Strategy.directLink, Strategy.vendorCDN, Strategy.searchFallback])) ∧
    (∀ fetchPage urlCell v, pyStrip v = v → looksLikeImageUrl v = true →
      processRow fetchPage urlCell (some v) = (some (Json.str v), [])) := by
  refine ⟨fun fetchPage url h => by simp [tryScrapePage, h], ?_, processRow_direct⟩
  intro excluded tryStrategy url hex
  cases h1 : tryStrategy Strategy.directLink url with
  | some v1 =>
    constructor
    · intro s hs
      simp [specPipeline, strategyOrder, runStrategies, hex, scrapeStrategy, h1] at hs
      subst hs
      rfl
    · intro hnone
      simp [specPipeline, strategyOrder, runStrategies, hex, scrapeStrategy, h1] at hnone
  | none =>
    cases h2 : tryStrategy Strategy.vendorCDN url with
    | some v2 =>
      constructor
      · intro s hs
        simp [specPipeline, strategyOrder, runStrategies, hex, scrapeStrategy, h1, h2] at hs
        rcases hs with hs | hs <;> subst hs <;> rfl
      · intro hnone
        simp [specPipeline, strategyOrder, runStrategies, hex, scrapeStrategy, h1, h2] at hnone
    | none =>
      cases h5 : tryStrategy Strategy.searchFallback url with
      | some v5 =>
        constructor
        · intro s hs
          simp [specPipeline, strategyOrder, runStrategies, hex, scrapeStrategy,
            h1, h2, h5] at hs
          rcases hs with hs | hs | hs <;> subst hs <;> rfl
        · intro hnone
          simp [specPipeline, strategyOrder, runStrategies, hex, scrapeStrategy,
            h1, h2, h5] at hnone
      | none =>
        constructor
        · intro s hs
          simp [specPipeline, strategyOrder, runStrategies, hex, scrapeStrategy,
            h1, h2, h5] at hs
          rcases hs with hs | hs | hs <;> subst hs <;> rfl
        · intro _
          simp [specPipeline, strategyOrder, runStrategies, hex, scrapeStrategy, h1, h2, h5]

theorem c2_witness :
    excludedDomain "https://www.etsy.com/listing/123" = true ∧
    tryScrapePage (fun _ => Except.error "offline") "https://www.etsy.com/listing/123"
      = (none, []) ∧
    (specPipeline (fun u => pyContains u "etsy.com") (fun _ _ => none)
        "https://www.etsy.com/listing/123").2
      = [Strategy.directLink, Strategy.vendorCDN, Strategy.searchFallback] ∧
    processRow (fun _ => Except.error "offline") none
        (some "https://i.etsystatic.com/123/r/il/abc.jpg")
      = (some (Json.str "https://i.etsystatic.com/123/r/il/abc.jpg"), []) :=
  ⟨by decide,
   c2_excluded_domains.1 (fun _ => Except.error "offline") "https://www.etsy.com/listing/123"
     (by decide),
   (c2_excluded_domains.2.1 (fun u => pyContains u "etsy.com") (fun _ _ => none)
     "https://www.etsy.com/listing/123" (by decide)).2 (by decide),
   c2_excluded_domains.2.2 (fun _ => Except.error "offline") none
     "https://i.etsystatic.com/123/r/il/abc.jpg" (by decide) (by decide)⟩

/-- Claim C4 counterexample: a page whose first `og:image` tag has the
path-relative content `images/a.jpg` (no leading slash).  `try_scrape_page`
returns that content verbatim, not resolved to an absolute URL, contradicting
the claim that relative content is resolved to an absolute URL. -/
theorem c4_counterexample :
    tryScrapePage
        (fun _ => Except.ok ⟨200, ⟨[⟨some "og:image", none, some "images/a.jpg"⟩], []⟩⟩)
        "https://example.com/product/1"
      = (some (Json.str "images/a.jpg"),
         [NetEvent.pageFetch "https://example.com/product/1", NetEvent.metaPhase]) ∧
    pyStartsWith "images/a.jpg" "http" = false ∧
    pyStartsWith "images/a.jpg" "/" = false := ⟨rfl, by decide, by decide⟩

/-- Claim C4 (amended): the meta-tag phase checks the fixed ordered list of
known meta-tag names; a first `og:image` tag with non-empty content decides
the result, after a fixup that makes the URL absolute only when the content
is protocol-relative (`//…`) or root-relative (`/…`) — content not starting
with a slash, including the absolute `https://example.com/a.jpg` of the
claim, is returned exactly verbatim. -/
theorem c4_meta_tag_amended :
    (∀ pageUrl metas m c, findMeta metas "og:image" = some m → m.content = some c →
      c ≠ "" → findMetaImage pageUrl metas = some (resolveMetaContent pageUrl c)) ∧
    (∀ pageUrl c, pyStartsWith c "/" = false → resolveMetaContent pageUrl c = c) ∧
    (∀ fetchPage url page m c, excludedDomain url = false →
      fetchPage url = Except.ok ⟨200, page⟩ →
      findMeta page.metas "og:image" = some m → m.content = some c → c ≠ "" →
      tryScrapePage fetchPage url
        = (some (Json.str (resolveMetaContent url c)),
           [NetEvent.pageFetch url, NetEvent.metaPhase])) :=
  ⟨findMetaImage_og, resolveMetaContent_verbatim,
   fun fetchPage url page m c hx hf hm hc hne => tryScrapePage_meta fetchPage url page m c hx hf hm hc hne⟩

theorem c4_witness :
    tryScrapePage
        (fun _ => Except.ok ⟨200, ⟨[⟨some "og:image", none, some "https://example.com/a.jpg"⟩], []⟩⟩)
        "https://example.com/p"
      = (some (Json.str (resolveMetaContent "https://example.com/p" "https://example.com/a.jpg")),
         [NetEvent.pageFetch "https://example.com/p", NetEvent.metaPhase]) ∧
    resolveMetaContent "https://example.com/p" "https://example.com/a.jpg"
      = "https://example.com/a.jpg" :=
  ⟨c4_meta_tag_amended.2.2
     (fun _ => Except.ok ⟨200, ⟨[⟨some "og:image", none, some "https://example.com/a.jpg"⟩], []⟩⟩)
     "https://example.com/p" ⟨[⟨some "og:image", none, some "https://example.com/a.jpg"⟩], []⟩
     ⟨some "og:image", none, some "https://example.com/a.jpg"⟩ "https://example.com/a.jpg"
     (by decide) rfl rfl rfl (by decide),
   by decide⟩

/-- Claim C5: in a JSON-LD item, an `image` field holding a single string
yields that string and an `image` field holding a non-empty list yields its
first element; and on a fetched page with no usable meta tags whose JSON-LD
phase produces a value, `try_scrape_page` returns exactly that value. -/
theorem c5_structured_data :
    (∀ fields s, List.lookup "image" fields = some (Json.str s) →
      itemImage (Json.obj fields) = some (Json.str s)) ∧
    (∀ fields x xs, List.lookup "image" fields = some (Json.arr (x :: xs)) →
      itemImage (Json.obj fields) = some x) ∧
    (∀ fetchPage url page v, excludedDomain url = false →
      fetchPage url = Except.ok ⟨200, page⟩ →
      findMetaImage url page.metas = none →
      jsonLdImage page.ldScripts = some v →
      tryScrapePage fetchPage url
        = (some v, [NetEvent.pageFetch url, NetEvent.metaPhase, NetEvent.jsonLdPhase])) :=
  ⟨fun fields s h => by simp [itemImage, h, imageFieldFirst],
   fun fields x xs h => by simp [itemImage, h, imageFieldFirst],
   fun fetchPage url page v hx hf hm hj => tryScrapePage_jsonLd fetchPage url page v hx hf hm hj⟩

theorem c5_witness :
    tryScrapePage
        (fun _ => Except.ok ⟨200, ⟨[],
          [some (Json.obj [("image", Json.arr [Json.str "https://example.com/b.jpg",
            Json.str "https://example.com/c.jpg"])])]⟩⟩)
        "https://example.com/product"
      = (some (Json.str "https://example.com/b.jpg"),
         [NetEvent.pageFetch "https://example.com/product", NetEvent.metaPhase,
          NetEvent.jsonLdPhase]) :=
  c5_structured_data.2.2
    (fun _ => Except.ok ⟨200, ⟨[],
      [some (Json.obj [("image", Json.arr [Json.str "https://example.com/b.jpg",
        Json.str "https://example.com/c.jpg"])])]⟩⟩)
    "https://example.com/product"
    ⟨[], [some (Json.obj [("image", Json.arr [Json.str "https://example.com/b.jpg",
      Json.str "https://example.com/c.jpg"])])]⟩
    (Json.str "https://example.com/b.jpg") (by decide) rfl rfl rfl

/-- Claim C3 counterexample: a realistic HTML block page — status 200,
declared content type `text/html; charset=utf-8`, a 1000-byte body whose
bytes are not a valid image, so the decoder raises.  `download_direct_image`
attempts the decode anyway (second component `true`), contradicting the
claim that a response whose declared content type is not an image yields
failure WITHOUT attempting to decode the body. -/
theorem c3_counterexample :
    pyContains (pyLower "text/html; charset=utf-8") "image" = false ∧
    downloadDirectImage
        (fun _ => Except.ok ⟨200, "text/html; charset=utf-8", List.replicate 1000 7⟩)
        (fun _ => Except.error "cannot identify image file")
        "https://example.com/blocked" 179 135
      = (none, true) :=
  ⟨by decide, by decide⟩

/-- Claim C3 (amended): given a successful, non-raising image fetch,
`download_direct_image` returns failure without attempting a decode exactly
when the declared content type does not contain `image` AND the body is
shorter than 1000 bytes; in every other case — in particular for a non-image
declared content type with a body of at least 1000 bytes, the typical HTML
block page — the body is passed to the decoder (whose failure still yields
no bitmap through the exception handler). -/
theorem c3_nonimage_short_circuit :
    (∀ fetchImage decode imageUrl w h r,
      fetchImage (normalizeImageUrl imageUrl) = Except.ok r →
      r.status < 400 →
      pyContains (pyLower r.contentType) "image" = false →
      r.body.length < 1000 →
      downloadDirectImage fetchImage decode imageUrl w h = (none, false)) ∧
    (∀ fetchImage decode imageUrl w h r,
      fetchImage (normalizeImageUrl imageUrl) = Except.ok r →
      r.status < 400 →
      (pyContains (pyLower r.contentType) "image" = true ∨ 1000 ≤ r.body.length) →
      (downloadDirectImage fetchImage decode imageUrl w h).2 = true) := by
  constructor
  · intro fetchImage decode imageUrl w h r hf hs hct hlen
    have hraise : ¬ (400 ≤ r.status ∧ r.status < 600) := fun hh => absurd hh.1 (by omega)
    simp [downloadDirectImage, hf, hraise, hct, hlen]
  · intro fetchImage decode imageUrl w h r hf hs hor
    have hraise : ¬ (400 ≤ r.status ∧ r.status < 600) := fun hh => absurd hh.1 (by omega)
    have hcond : ¬ (pyContains (pyLower r.contentType) "image" = false ∧
        r.body.length < 1000) := by
      rcases hor with hct | hlen
      · rintro ⟨hc, -⟩
        rw [hct] at hc
        exact Bool.noConfusion hc
      · rintro ⟨-, hl⟩
        omega
    simp only [downloadDirectImage, hf]
    rw [if_neg hraise, if_neg hcond]
    cases hd : decode r.body <;> rfl

theorem c3_witness :
    downloadDirectImage (fun _ => Except.ok ⟨200, "text/html", [1, 2, 3]⟩)
        (fun _ => Except.ok ⟨640, 480, "RGB"⟩) "https://example.com/blocked" 179 135
      = (none, false) ∧
    (downloadDirectImage (fun _ => Except.ok ⟨200, "text/html", List.replicate 1000 7⟩)
        (fun _ => Except.error "cannot identify image file")
        "https://example.com/denied" 179 135).2 = true :=
  ⟨c3_nonimage_short_circuit.1 (fun _ => Except.ok ⟨200, "text/html", [1, 2, 3]⟩)
     (fun _ => Except.ok ⟨640, 480, "RGB"⟩) "https://example.com/blocked" 179 135
     ⟨200, "text/html", [1, 2, 3]⟩ rfl (by decide) (by decide) (by decide),
   c3_nonimage_short_circuit.2 (fun _ => Except.ok ⟨200, "text/html", List.replicate 1000 7⟩)
     (fun _ => Except.error "cannot identify image file") "https://example.com/denied" 179 135
     ⟨200, "text/html", List.replicate 1000 7⟩ rfl (by decide) (Or.inr (by simp))⟩

/-- Claim C8: whenever `download_direct_image` returns a bitmap, its
dimensions are exactly the requested width and height, whatever the decoded
source image's dimensions and mode were. -/
theorem c8_resize_exact (fetchImage : String → Except String HttpResponse)
    (decode : List Nat → Except String RawImage) (imageUrl : String) (w h : Nat)
    (img : RawImage) (b : Bool)
    (hres : downloadDirectImage fetchImage decode imageUrl w h = (some img, b)) :
    img.width = w ∧ img.height = h := by
  simp only [downloadDirectImage] at hres
  split at hres
  · simp at hres
  · split at hres
    · simp at hres
    · split at hres
      · simp at hres
      · split at hres
        · simp at hres
        · simp only [Prod.mk.injEq, Option.some.injEq] at hres
          rw [← hres.1]
          exact ⟨rfl, rfl⟩

theorem c8_witness :
    downloadDirectImage (fun _ => Except.ok ⟨200, "image/jpeg", []⟩)
        (fun _ => Except.ok ⟨640, 480, "RGBA"⟩) "https://example.com/a.jpg" 179 135
      = (some ⟨179, 135, "RGB"⟩, true) ∧
    ((⟨179, 135, "RGB"⟩ : RawImage).width = 179 ∧ (⟨179, 135, "RGB"⟩ : RawImage).height = 135) :=
  ⟨by decide,
   c8_resize_exact (fun _ => Except.ok ⟨200, "image/jpeg", []⟩)
     (fun _ => Except.ok ⟨640, 480, "RGBA"⟩) "https://example.com/a.jpg" 179 135
     ⟨179, 135, "RGB"⟩ true (by decide)⟩

/-- Claim C6: a raised exception inside the scraping strategies or an image
fetch/decode is caught and yields "no result" for that row alone:
`try_scrape_page` returns `none` when the page fetch raises,
`download_direct_image` returns `none` when the image fetch raises or the
decode raises, and the batch driver still produces one outcome per input row
with each row processed independently of earlier failures. -/
theorem c6_soft_failures :
    (∀ fetchPage url e, fetchPage url = Except.error e →
      (tryScrapePage fetchPage url).1 = none) ∧
    (∀ fetchImage decode imageUrl w h e,
      fetchImage (normalizeImageUrl imageUrl) = Except.error e →
      downloadDirectImage fetchImage decode imageUrl w h = (none, false)) ∧
    (∀ fetchImage decode imageUrl w h e, (∀ bytes, decode bytes = Except.error e) →
      (downloadDirectImage fetchImage decode imageUrl w h).1 = none) ∧
    (∀ oc w h rows, (batchDrive oc w h rows).length = rows.length) ∧
    (∀ oc w h row rest, batchDrive oc w h (row :: rest)
      = rowOutcome oc w h row :: batchDrive oc w h rest) := by
  refine ⟨?_, ?_, ?_, ?_, ?_⟩
  · intro fetchPage url e he
    by_cases hx : excludedDomain url
    · simp [tryScrapePage, hx]
    · simp [tryScrapePage, hx, he]
  · intro fetchImage decode imageUrl w h e he
    simp [downloadDirectImage, he]
  · intro fetchImage decode imageUrl w h e hd
    simp only [downloadDirectImage]
    split
    · rfl
    · split
      · rfl
      · split
        · rfl
        · simp [hd]
  · intro oc w h rows
    simp [batchDrive]
  · intro oc w h row rest
    simp [batchDrive]

theorem c6_witness :
    (tryScrapePage (fun _ => Except.error "connection reset") "https://example.com/x").1
      = none ∧
    downloadDirectImage (fun _ => Except.error "connection reset")
        (fun _ => Except.ok ⟨1, 1, "RGB"⟩) "https://example.com/x.jpg" 179 135
      = (none, false) ∧
    (downloadDirectImage (fun _ => Except.ok ⟨200, "image/png", []⟩)
        (fun _ => Except.error "bad bytes") "https://example.com/x.png" 179 135).1 = none ∧
    (batchDrive
        ⟨fun _ => Except.error "down", fun _ => Except.error "down", fun _ => Except.error "down"⟩
        179 135
        [(some "https://example.com/a", none), (none, some "nan"), (none, none)]).length
      = 3 :=
  ⟨c6_soft_failures.1 (fun _ => Except.error "connection reset") "https://example.com/x"
     "connection reset" rfl,
   c6_soft_failures.2.1 (fun _ => Except.error "connection reset")
     (fun _ => Except.ok ⟨1, 1, "RGB"⟩) "https://example.com/x.jpg" 179 135
     "connection reset" rfl,
   c6_soft_failures.2.2.1 (fun _ => Except.ok ⟨200, "image/png", []⟩)
     (fun _ => Except.error "bad bytes") "https://example.com/x.png" 179 135
     "bad bytes" (fun _ => rfl),
   c6_soft_failures.2.2.2.1
     ⟨fun _ => Except.error "down", fun _ => Except.error "down", fun _ => Except.error "down"⟩
     179 135
     [(some "https://example.com/a", none), (none, some "nan"), (none, none)]⟩

/-- Claim C10: the acceptance heuristics of the two columns are asymmetric —
a (trim-stable) direct-image-URL value is accepted verbatim exactly when one
of the nine accepted substrings occurs anywhere in its lowercased form, while
a page-URL value is used as a direct image exactly when it is truthy, not
`nan`, and its lowercased form ends with one of the five extensions; the
concrete value `https://example.com/pic.jpg?width=500` (containing `.jpg`
only before a query string) is accepted verbatim from the direct-image-URL
column but sent to `try_scrape_page` from the page-URL column. -/
theorem c10_asymmetric_heuristics :
    (∀ fetchPage v, pyStrip v = v →
      (processRow fetchPage none (some v) = (some (Json.str v), []) ↔
        looksLikeImageUrl v = true)) ∧
    (∀ fetchPage v, pyStrip v = v →
      (processRow fetchPage (some v) none = (some (Json.str v), []) ↔
        (v ≠ "" ∧ v ≠ "nan" ∧ endsWithImageExt v = true))) ∧
    (looksLikeImageUrl "https://example.com/pic.jpg?width=500" = true ∧
     endsWithImageExt "https://example.com/pic.jpg?width=500" = false ∧
     processRow (fun _ => Except.error "offline") none
         (some "https://example.com/pic.jpg?width=500")
       = (some (Json.str "https://example.com/pic.jpg?width=500"), []) ∧
     (processRow (fun _ => Except.error "offline")
         (some "https://example.com/pic.jpg?width=500") none).2
       = [NetEvent.scrapeCall "https://example.com/pic.jpg?width=500",
          NetEvent.pageFetch "https://example.com/pic.jpg?width=500"]) := by
  refine ⟨?_, ?_, by decide, by decide, rfl, rfl⟩
  · intro fetchPage v hv
    constructor
    · intro hres
      cases hl : looksLikeImageUrl v with
      | true => rfl
      | false =>
        exfalso
        by_cases hnn : v = "nan"
        · subst hnn
          have hred : processRow fetchPage none (some "nan") = (none, []) := rfl
          rw [hred] at hres
          exact absurd hres (by simp)
        · by_cases hne : v = ""
          · subst hne
            have hred : processRow fetchPage none (some "") = (none, []) := rfl
            rw [hred] at hres
            exact absurd hres (by simp)
          · simp [processRow, cleanCell, hv, hnn, hne, hl] at hres
    · intro hl
      exact processRow_direct fetchPage none v hv hl
  · intro fetchPage v hv
    by_cases hnn : v = "nan"
    · subst hnn
      constructor
      · intro hres
        have hred : processRow fetchPage (some "nan") none = (none, []) := rfl
        rw [hred] at hres
        exact absurd hres (by simp)
      · rintro ⟨-, hb, -⟩
        exact absurd rfl hb
    · by_cases hne : v = ""
      · subst hne
        constructor
        · intro hres
          have hred : processRow fetchPage (some "") none = (none, []) := rfl
          rw [hred] at hres
          exact absurd hres (by simp)
        · rintro ⟨hb, -, -⟩
          exact absurd rfl hb
      · cases hext : endsWithImageExt v with
        | true =>
          constructor
          · intro _
            exact ⟨hne, hnn, rfl⟩
          · intro _
            simp [processRow, cleanCell, hv, hnn, hne, hext]
        | false =>
          constructor
          · intro hres
            simp [processRow, cleanCell, hv, hnn, hne, hext] at hres
          · rintro ⟨-, -, hb⟩
            exact Bool.noConfusion hb

theorem c10_witness :
    pyStrip "https://img.example.com/a.jpg?x=1" = "https://img.example.com/a.jpg?x=1" ∧
    (processRow (fun _ => Except.error "offline") none (some "https://img.example.com/a.jpg?x=1")
        = (some (Json.str "https://img.example.com/a.jpg?x=1"), []) ↔
      looksLikeImageUrl "https://img.example.com/a.jpg?x=1" = true) :=
  ⟨by decide,
   c10_asymmetric_heuristics.1 (fun _ => Except.error "offline")
     "https://img.example.com/a.jpg?x=1" (by decide)⟩
